import Mathlib

/-!
Verification of the RPCFramework repository (JSON-RPC-style method registry,
dispatcher, protocol adapters, discovery directory and client).

The definitions below are a shallow embedding of the Python source:
* `src/rpcframework/errors.py` — `JSONRPCError` and the error constructors.
* `src/rpcframework/server/dispatcher.py` — `_call_fn` and `RPCDispatcher.dispatch`.
* `src/rpcframework/server/registry.py` — `RPCMethodRegistry` (register / get /
  `_handle_single` / `_make_response`).
* `src/rpcframework/transport/http.py` — `HTTPTransport` (`handle`,
  `_handle_single`, `_make_response`).
* `src/rpcframework/schemas.py` — `RPCRequest` / `RPCResponse` pydantic models,
  embedded as explicit parse/render functions (`exclude_none` field dropping is
  modelled by `Option` fields that are absent when `none`).
* `src/rpcframework/discovery/discovery_service.py` — the directory store
  (the sqlite `agents` table is modelled as a list of rows in rowid order).
* `src/rpcframework/discovery/discovery_client.py` and
  `src/rpcframework/client/rpc_client.py`, `src/rpcframework/client/client.py`
  — discovery lookup and the RPC client.

Conventions: Python `None` is `Option.none` for an absent field and `Value.null`
for a decoded JSON `null` (the two coincide in Python; `pyNone` normalises).
Exact Python exception rendering (`str(e)`) is modelled by simplified strings,
since no property below depends on the precise text of a message.
-/

namespace RPCFramework

/-- Decoded JSON values (the payloads exchanged on the wire). Numbers are
modelled as integers; no property in this development involves floats. -/
inductive Value where
  | null
  | bool (b : Bool)
  | num (n : Int)
  | str (s : String)
  | arr (elems : List Value)
  | obj (fields : List (String × Value))

/-- Lookup of a key in a decoded JSON object / Python dict. Objects produced by
`json.loads` have distinct keys, so first-match lookup is the dict lookup. -/
def dictLookup {α : Type} (fields : List (String × α)) (k : String) : Option α :=
  match fields with
  | [] => none
  | (k2, v) :: rest => if k2 = k then some v else dictLookup rest k

/-- Python dict insertion: an existing key keeps its position and gets the new
value, a new key is appended at the end. -/
def dictInsert {α : Type} (fields : List (String × α)) (k : String) (v : α) :
    List (String × α) :=
  match fields with
  | [] => [(k, v)]
  | (k2, v2) :: rest =>
      if k2 = k then (k2, v) :: rest else (k2, v2) :: dictInsert rest k v

/-- JSON `null` decodes to Python `None`, so an explicit `null` field and an
absent field are the same Python value. -/
def pyNone (v : Option Value) : Option Value :=
  match v with
  | some .null => none
  | v => v

/-- errors.py: `JSONRPCError(Exception)` — `code`, `message`, optional `data`. -/
structure JSONRPCError where
  code : Int
  message : String
  data : Option Value

/-- errors.py: `PARSE_ERROR = lambda d=None: JSONRPCError(-32700, "Parse error", d)`. -/
def PARSE_ERROR (d : Option Value) : JSONRPCError := ⟨-32700, "Parse error", d⟩

/-- errors.py: `INVALID_REQUEST = lambda d=None: JSONRPCError(-32600, "Invalid Request", d)`. -/
def INVALID_REQUEST (d : Option Value) : JSONRPCError := ⟨-32600, "Invalid Request", d⟩

/-- errors.py: `METHOD_NOT_FOUND = lambda d=None: JSONRPCError(-32601, "Method not found", d)`. -/
def METHOD_NOT_FOUND (d : Option Value) : JSONRPCError := ⟨-32601, "Method not found", d⟩

/-- errors.py: `INVALID_PARAMS = lambda d=None: JSONRPCError(-32602, "Invalid params", d)`. -/
def INVALID_PARAMS (d : Option Value) : JSONRPCError := ⟨-32602, "Invalid params", d⟩

/-- Python exceptions that flow through the server code: `TypeError` (bad call
signature), `JSONRPCError`, `NameError` (an unbound name evaluated at run
time — registry.py and transport/http.py reference error constructors their
modules never import), and any other exception carrying a message. -/
inductive PyExc where
  | typeError (msg : String)
  | rpcError (e : JSONRPCError)
  | nameError (msg : String)
  | other (msg : String)

/-- Python `str(e)` for the modelled exceptions. For a `JSONRPCError` (a
dataclass deriving `Exception`) Python renders the argument tuple; we use a
simplified rendering since no property depends on the exact text (for
`NameError` Python quotes the name; the quotes are omitted here). -/
def PyExc.toText : PyExc → String
  | .typeError m => m
  | .rpcError e => "(" ++ toString e.code ++ ", " ++ e.message ++ ")"
  | .nameError m => m
  | .other m => m

/-- A Python callable as the dispatcher sees it: invoked with positional
arguments and keyword arguments, it either returns a value or raises. A call
that does not match the signature (arity mismatch, unknown keyword, ...)
raises `TypeError`, exactly as in Python. -/
structure Handler where
  call : List Value → List (String × Value) → Except PyExc Value

/-- The JSON-RPC `params` argument as `_call_fn` receives it: Python `None`, a
list, a dict, or any other Python value. -/
inductive Params where
  | none
  | list (elems : List Value)
  | dict (fields : List (String × Value))
  | other (v : Value)

/-- Helper for `_call_fn`: `{"reason": s}`. -/
def reasonObj (s : String) : Value := .obj [("reason", .str s)]

/-- dispatcher.py `_call_fn` (the live Version 2): the `try` block around the
three invocation shapes converts a `TypeError` into
`INVALID_PARAMS({"reason": str(e)})`; the `else` branch raises
`INVALID_PARAMS` directly (a `JSONRPCError`, so the `except TypeError` does
not catch it); every other exception propagates. The sync/async unwrapping
(`inspect.isawaitable`) has no observable effect in this embedding. -/
def callFn (fn : Handler) (params : Params) : Except PyExc Value :=
  match params with
  | .none =>
      match fn.call [] [] with
      | .error (.typeError m) => .error (.rpcError (INVALID_PARAMS (some (reasonObj m))))
      | r => r
  | .list xs =>
      match fn.call xs [] with
      | .error (.typeError m) => .error (.rpcError (INVALID_PARAMS (some (reasonObj m))))
      | r => r
  | .dict kvs =>
      match fn.call [] kvs with
      | .error (.typeError m) => .error (.rpcError (INVALID_PARAMS (some (reasonObj m))))
      | r => r
  | .other _ =>
      .error (.rpcError (INVALID_PARAMS (some (reasonObj "params must be list or dict or null"))))

/-- registry.py `_MethodWrapper`: the registered callable plus metadata.
`param_types` / `return_type` come from runtime reflection
(`get_type_hints`) and are not consulted on the dispatch path, so they are
not modelled. -/
structure MethodWrapper where
  name : String
  fn : Handler
  description : Option String
  params_schema : Option Value

/-- registry.py `RegistrySettings` (the fields on the registration/dispatch
paths; networking settings are omitted). Defaults: `warn_on_duplicate = True`,
`strict_mode = False`, `auto_register = True`. -/
structure RegistrySettings where
  warn_on_duplicate : Bool
  strict_mode : Bool
  auto_register : Bool

def defaultSettings : RegistrySettings := ⟨true, false, true⟩

/-- registry.py `RPCMethodRegistry`: the `_methods` dict (insertion-ordered)
plus settings. -/
structure RPCMethodRegistry where
  name : String
  methods : List (String × MethodWrapper)
  settings : RegistrySettings

/-- registry.py `RPCMethodRegistry.register` (the decorator body, with the
method name already resolved from `name or fn.__name__`): raises `ValueError`
when the name exists and `warn_on_duplicate` is false, otherwise stores the
wrapper, overwriting any previous one. -/
def RPCMethodRegistry.register (reg : RPCMethodRegistry) (methodName : String)
    (description : Option String) (params_schema : Option Value) (fn : Handler) :
    Except String RPCMethodRegistry :=
  if (dictLookup reg.methods methodName).isSome && !reg.settings.warn_on_duplicate then
    .error ("Method " ++ methodName ++ " already registered")
  else
    .ok { reg with
      methods := dictInsert reg.methods methodName
        ⟨methodName, fn, description, params_schema⟩ }

/-- registry.py `RPCMethodRegistry.get`: returns the wrapper, or on a miss
executes `raise METHOD_NOT_FOUND({"method": method_name})` — but registry.py
imports only `PARSE_ERROR` and `INVALID_REQUEST` from the errors module, so
the name `METHOD_NOT_FOUND` is unbound there and evaluating the raise
statement itself raises `NameError` at run time. -/
def RPCMethodRegistry.get (reg : RPCMethodRegistry) (methodName : String) :
    Except PyExc MethodWrapper :=
  match dictLookup reg.methods methodName with
  | some w => .ok w
  | none => .error (.nameError "name METHOD_NOT_FOUND is not defined")

/-- Request correlation ids: JSON-RPC allows a string or a number. -/
inductive IdVal where
  | num (n : Int)
  | str (s : String)

/-- The dict `{"result": ..., "id": ...}` that a successful
`RPCDispatcher.dispatch` returns. -/
structure DispatchOk where
  result : Value
  id : Option IdVal

/-- dispatcher.py `RPCDispatcher.dispatch` (the live Version 2): looks the
method up and invokes it, but the `except Exception` clause (the
`except JSONRPCError: raise` pass-through is commented out in the source)
wraps every failure — including the `METHOD_NOT_FOUND` raised by
`registry.get` and the `INVALID_PARAMS` raised by `_call_fn` — into
`JSONRPCError(-32000, "Server error", {"exception": str(e)})`. -/
def RPCDispatcher.dispatch (reg : RPCMethodRegistry) (method : String)
    (params : Params) (requestId : Option IdVal) : Except JSONRPCError DispatchOk :=
  match (reg.get method).bind (fun w => callFn w.fn params) with
  | .ok v => .ok ⟨v, requestId⟩
  | .error e =>
      .error ⟨-32000, "Server error", some (.obj [("exception", .str e.toText)])⟩

/-- schemas.py `RPCRequest.params : Optional[Union[List[Any], dict]]` after
validation: a list or a dict (absence is the surrounding `Option`). -/
inductive ReqParams where
  | list (elems : List Value)
  | dict (fields : List (String × Value))

/-- A validated `RPCRequest` (schemas.py): `jsonrpc` defaults to `"2.0"`,
`method` is required, `params` and `id` are optional. -/
structure RPCRequest where
  jsonrpc : String
  method : String
  params : Option ReqParams
  id : Option IdVal

/-- schemas.py `RPCRequest.parse_obj` on a decoded JSON value. Field
validation: `jsonrpc`/`method` must be strings, `params` a list or dict,
`id` an int or string; `null` is accepted where the annotation is
`Optional`; extra keys are ignored; a non-object payload fails. (Pydantic
accepts a few numeric coercions here whose boundary is version-dependent;
none of the inputs used below are affected.) Error messages are simplified
renderings of the `ValidationError` text. -/
def RPCRequest.parse_obj (item : Value) : Except String RPCRequest :=
  match item with
  | .obj fields => do
      let jsonrpc ← match dictLookup fields "jsonrpc" with
        | none => Except.ok "2.0"
        | some (.str s) => Except.ok s
        | some _ => Except.error "jsonrpc field must be a string"
      let method ← match dictLookup fields "method" with
        | none => Except.error "method field required"
        | some (.str s) => Except.ok s
        | some _ => Except.error "method field must be a string"
      let params ← match dictLookup fields "params" with
        | none => Except.ok Option.none
        | some .null => Except.ok Option.none
        | some (.arr xs) => Except.ok (some (ReqParams.list xs))
        | some (.obj kvs) => Except.ok (some (ReqParams.dict kvs))
        | some _ => Except.error "params field must be a list or dict"
      let id ← match dictLookup fields "id" with
        | none => Except.ok Option.none
        | some .null => Except.ok Option.none
        | some (.num n) => Except.ok (some (IdVal.num n))
        | some (.str s) => Except.ok (some (IdVal.str s))
        | some _ => Except.error "id field must be an int or string"
      Except.ok ⟨jsonrpc, method, params, id⟩
  | _ => .error "payload is not an object"

/-- The `params` value handed to `dispatch` for a parsed request (Python
`None`, list, or dict — never any other shape after validation). -/
def paramsOfReq (p : Option ReqParams) : Params :=
  match p with
  | none => .none
  | some (.list xs) => .list xs
  | some (.dict kvs) => .dict kvs

/-- The error member of a rendered response, after
`JSONRPCError.to_dict` and `RPCResponse(...).dict(exclude_none=True)`:
`code` and `message` always present, `data` present when not `None`. -/
structure ErrObjDict where
  code : Int
  message : String
  data : Option Value

/-- The dict produced by `RPCResponse(...).dict(exclude_none=True)`
(schemas.py): `jsonrpc` is always `"2.0"`; `result`, `error` and `id` are
present exactly when the underlying value is not Python `None`. -/
structure RPCResponseDict where
  jsonrpc : String
  result : Option Value
  error : Option ErrObjDict
  id : Option IdVal

/-- `_make_response(result=..., error=..., id=...)` as implemented identically
in transport/http.py and registry.py for the inputs that occur: the error (a
`JSONRPCError` or `None`) is rendered with `to_dict`, and
`.dict(exclude_none=True)` drops every field whose value is Python `None` —
including `result` when the handler returned `None`. -/
def makeResponse (result : Option Value) (error : Option JSONRPCError)
    (id : Option IdVal) : RPCResponseDict :=
  { jsonrpc := "2.0"
    result := pyNone result
    error := error.map (fun e => ⟨e.code, e.message, e.data⟩)
    id := id }

/-- What `item.get("id")` followed by `RPCResponse(..., id=...)` validation
does on the parse-failure path of registry.py `_handle_single`: a non-object
item has no `.get` (Python raises `AttributeError`), and a salvaged id that
is not an int, string or `null` fails `RPCResponse` validation (Python
raises `ValidationError`); both escape `_handle_single` uncaught. (The HTTP
adapter never reaches this point: its parse-failure branch dies earlier, see
`HTTPTransport.handle_single`.) -/
def salvageId (item : Value) : Except PyExc (Option IdVal) :=
  match item with
  | .obj fields =>
      match pyNone (dictLookup fields "id") with
      | none => .ok none
      | some (.num n) => .ok (some (.num n))
      | some (.str s) => .ok (some (.str s))
      | some _ => .error (.other "validation error for RPCResponse id")
  | _ => .error (.typeError "object has no attribute get")

/-- The call arm of `_handle_single`: the dispatch outcome is converted into
exactly one response dict (`result` on success, the raised error otherwise). -/
def handleCall (reg : RPCMethodRegistry) (req : RPCRequest) (rid : IdVal) :
    RPCResponseDict :=
  match RPCDispatcher.dispatch reg req.method (paramsOfReq req.params) (some rid) with
  | .ok r => makeResponse (some r.result) none (some rid)
  | .error e => makeResponse none (some e) (some rid)

/-- `_handle_single` after a successful parse: a notification (`id` is `None`)
has its dispatch attempted with any outcome discarded behind the bare
`except` and produces no response; a call produces exactly one response. -/
def handleParsed (reg : RPCMethodRegistry) (req : RPCRequest) :
    Option RPCResponseDict :=
  match req.id with
  | none =>
      let _attempted :=
        RPCDispatcher.dispatch reg req.method (paramsOfReq req.params) none
      none
  | some rid => some (handleCall reg req rid)

/-- transport/http.py `HTTPTransport._handle_single` (the live Version 2):
the parse-failure branch executes
`error = JSONRPCError(-32000, "Server error", str(e))` — but http.py imports
only `PARSE_ERROR` and `INVALID_REQUEST`, so the name `JSONRPCError` is
unbound there: looking it up raises `NameError`, which escapes
`_handle_single` uncaught (no response is built and `item.get("id")` is
never evaluated). A parsed request is handled by `handleParsed`; a `.error`
result is an exception escaping the handler. -/
def HTTPTransport.handle_single (reg : RPCMethodRegistry) (item : Value) :
    Except PyExc (Option RPCResponseDict) :=
  match RPCRequest.parse_obj item with
  | .error _ => .error (.nameError "name JSONRPCError is not defined")
  | .ok req => .ok (handleParsed reg req)

/-- registry.py `RPCMethodRegistry._handle_single` (the stdio path):
`INVALID_REQUEST` is imported in registry.py, so an unparseable item is
answered with `INVALID_REQUEST(str(e))` (code `-32600`) keyed to the
salvaged id; a parsed request is handled by `handleParsed`. A `.error`
result is an exception escaping the handler. -/
def RPCMethodRegistry.handle_single (reg : RPCMethodRegistry) (item : Value) :
    Except PyExc (Option RPCResponseDict) :=
  match RPCRequest.parse_obj item with
  | .error msg =>
      match salvageId item with
      | .error exc => .error exc
      | .ok idv =>
          .ok (some (makeResponse none (some (INVALID_REQUEST (some (.str msg)))) idv))
  | .ok req => .ok (handleParsed reg req)

/-- The list comprehension `[await self._handle_single(item) for item in payload]`:
items are handled sequentially in array order; the first escaping exception
aborts the whole comprehension. -/
def handleItems (reg : RPCMethodRegistry) : List Value →
    Except PyExc (List (Option RPCResponseDict))
  | [] => .ok []
  | item :: rest => do
      let r ← HTTPTransport.handle_single reg item
      let rs ← handleItems reg rest
      .ok (r :: rs)

/-- The batch arm of `HTTPTransport.handle`:
`[r for r in [...] if r]`. The truthiness filter drops exactly the `None`
entries of notifications — every rendered response dict contains at least its
`jsonrpc` key, hence is a non-empty (truthy) dict. -/
def HTTPTransport.handle_batch (reg : RPCMethodRegistry) (items : List Value) :
    Except PyExc (List RPCResponseDict) :=
  (handleItems reg items).map (fun rs => rs.filterMap id)

/-- Outcome of `HTTPTransport.handle` on a decoded payload: HTTP 204 with no
body, a single response object, or an array of responses. -/
inductive HttpOut where
  | noContent
  | single (r : RPCResponseDict)
  | batch (rs : List RPCResponseDict)

/-- transport/http.py `HTTPTransport.handle`, from the decoded JSON payload on
(the empty-body and undecodable-body 400 replies happen before this point): a
list payload is handled as a batch, answering 204 when no responses remain;
any other payload is handled as a single envelope, answering 204 exactly for
a notification. -/
def HTTPTransport.handle (reg : RPCMethodRegistry) (payload : Value) :
    Except PyExc HttpOut :=
  match payload with
  | .arr items =>
      (HTTPTransport.handle_batch reg items).map
        (fun rs => if rs.isEmpty then .noContent else .batch rs)
  | item =>
      (HTTPTransport.handle_single reg item).map
        (fun r => match r with
          | none => .noContent
          | some resp => .single resp)

/-- The list comprehension of registry.py `_handle_payload`
(`[await self._handle_single(p) for p in payload]`): items handled
sequentially in array order through the stdio `_handle_single`; the first
escaping exception aborts the whole comprehension. -/
def registryHandleItems (reg : RPCMethodRegistry) : List Value →
    Except PyExc (List (Option RPCResponseDict))
  | [] => .ok []
  | item :: rest => do
      let r ← RPCMethodRegistry.handle_single reg item
      let rs ← registryHandleItems reg rest
      .ok (r :: rs)

/-- The batch arm of registry.py `RPCMethodRegistry._handle_payload`:
`responses = [r for r in [...] if r]; return responses or None`. The
truthiness filter drops exactly the `None` entries of notifications (every
rendered response dict contains at least its `jsonrpc` key, hence is
truthy), and `responses or None` turns an empty response list into `None` —
no body is emitted. The non-list arm delegates to `_handle_single`
unchanged. -/
def RPCMethodRegistry.handle_payload_batch (reg : RPCMethodRegistry)
    (items : List Value) : Except PyExc (Option (List RPCResponseDict)) :=
  (registryHandleItems reg items).map (fun rs =>
    let responses := rs.filterMap id
    if responses.isEmpty then none else some responses)

/-- discovery/models.py and discovery_service.py `AgentCard`: one row of the
directory (`registered_at` is the ISO timestamp string as stored). -/
structure AgentCard where
  name : String
  version : String
  endpoint : String
  health_url : Option String
  capabilities : List String
  description : Option String
  registered_at : String
  meta : List (String × Value)

/-- The directory store: the sqlite `agents` table (primary key `name`),
as a list of rows in rowid order. -/
abbrev AgentStore := List AgentCard

/-- discovery_service.py `register_agent`: `INSERT OR REPLACE` keyed by the
primary key `name` — sqlite deletes any row with the same name and inserts
the new row (with a fresh rowid, hence at the end). -/
def register_agent (store : AgentStore) (card : AgentCard) : AgentStore :=
  (List.filter (fun r => !(r.name == card.name)) store) ++ [card]

/-- discovery_service.py `discover_agent`: scans all rows and keeps those
whose decoded `capabilities` list contains `method` (exact string match);
an empty result is reported as HTTP 404, otherwise the matching cards are
returned. -/
def discover_agent (store : AgentStore) (method : String) :
    Except Nat (List AgentCard) :=
  let results := List.filter (fun r => r.capabilities.contains method) store
  if results.isEmpty then .error 404 else .ok results

/-- What the discovery HTTP endpoint can answer to `find_agents`: a 2xx JSON
list of cards, a 404, another HTTP error status (from `raise_for_status`), or
a network failure (`httpx.RequestError`). -/
inductive DirectoryReply where
  | success (cards : List AgentCard)
  | notFound
  | httpError (status : Nat)
  | networkError (msg : String)

/-- Failures `DiscoveryClient.find_agents` propagates to its caller. -/
inductive DiscoveryFailure where
  | statusError (status : Nat)
  | requestError (msg : String)

/-- discovery_client.py `DiscoveryClient.find_agents`: a 404 from the
directory is translated into an empty list; any other HTTP error status or
network error is re-raised. -/
def DiscoveryClient.find_agents (reply : DirectoryReply) :
    Except DiscoveryFailure (List AgentCard) :=
  match reply with
  | .success cards => .ok cards
  | .notFound => .ok []
  | .httpError s => .error (.statusError s)
  | .networkError m => .error (.requestError m)

/-- Failures `RPCClient.find_agent` raises: the `RuntimeError` for an empty
candidate list, or a propagated discovery failure. -/
inductive ClientError where
  | noAgentFound (method : String)
  | discovery (e : DiscoveryFailure)

/-- client/rpc_client.py `RPCClient.find_agent`: asks discovery for the
candidate list, raises `RuntimeError("No agents found for method: ...")` when
it is empty, and otherwise returns `random.choice(agents)` — modelled by an
arbitrary index `pick` reduced modulo the list length. No transport to any
agent endpoint is involved: the only network interaction is the discovery
lookup, whose outcome is the `reply` argument. -/
def RPCClient.find_agent (reply : DirectoryReply) (method : String) (pick : Nat) :
    Except ClientError AgentCard :=
  match DiscoveryClient.find_agents reply with
  | .error e => .error (.discovery e)
  | .ok [] => .error (.noAgentFound method)
  | .ok (a :: rest) =>
      .ok ((a :: rest).get ⟨pick % (a :: rest).length, Nat.mod_lt _ (Nat.succ_pos _)⟩)

/-- The JSON body `req.dict(exclude_none=True)` that the client posts:
`params` is absent when `None`, `id` is absent when `None`. -/
structure OutRequest where
  jsonrpc : String
  method : String
  params : Option ReqParams
  id : Option IdVal

/-- client/client.py `JSONRPCTransport.call_method`: builds
`RPCRequest(method=method, params=params, id=id or "1")` — Python `or`
falls back to `"1"` whenever `id` is `None` or falsy (the empty string) —
and posts `req.dict(exclude_none=True)`. -/
def JSONRPCTransport.call_method_request (method : String)
    (params : Option ReqParams) (id : Option String) : OutRequest :=
  { jsonrpc := "2.0"
    method := method
    params := params
    id := some (.str (match id with
      | none => "1"
      | some s => if s = "" then "1" else s)) }

/-- client/rpc_client.py `RPCClient.call`, step 3: after an agent is resolved,
the call is issued through `transport.call_method(method, params)` — with no
`id` argument. -/
def RPCClient.call_request (method : String) (params : Option ReqParams) :
    OutRequest :=
  JSONRPCTransport.call_method_request method params none

/-- Python `a + b` on two decoded values: integer addition on numbers,
`TypeError` otherwise (string params are not needed below). -/
def evalAdd (a b : Value) : Except PyExc Value :=
  match a, b with
  | .num x, .num y => .ok (.num (x + y))
  | _, _ => .error (.typeError "unsupported operand types for +")

/-- The callable of main.py `def add(a, b): return a + b`: two positional
arguments, or keyword arguments `a` and `b`; any other binding raises
`TypeError` (mixed positional/keyword calls never occur via `_call_fn`). -/
def addHandler : Handler :=
  ⟨fun posArgs kwargs =>
    match posArgs, kwargs with
    | [a, b], [] => evalAdd a b
    | [], kws =>
        match dictLookup kws "a", dictLookup kws "b" with
        | some a, some b =>
            if kws.length == 2 then evalAdd a b
            else .error (.typeError "got an unexpected keyword argument")
        | _, _ => .error (.typeError "missing a required argument")
    | _, _ => .error (.typeError "add takes 2 positional arguments")⟩

/-- A handler that takes no arguments and returns Python `None` (a function
body without a `return` statement). -/
def pingHandler : Handler :=
  ⟨fun posArgs kwargs =>
    match posArgs, kwargs with
    | [], [] => .ok .null
    | _, _ => .error (.typeError "ping takes no arguments")⟩

/-- A registry with no methods registered, default settings. -/
def emptyRegistry : RPCMethodRegistry := ⟨"rpc", [], defaultSettings⟩

/-- A registry serving `add` (two numbers) and `ping` (returns `None`). -/
def demoRegistry : RPCMethodRegistry :=
  ⟨"rpc",
    [("add", ⟨"add", addHandler, none, none⟩),
     ("ping", ⟨"ping", pingHandler, none, none⟩)],
    defaultSettings⟩

/-- The error code carried by a failed dispatch, if any. -/
def errCode {α : Type} (r : Except JSONRPCError α) : Option Int :=
  match r with
  | .error e => some e.code
  | .ok _ => none

/-- Observation helper: did the computation succeed (no exception escaped)? -/
def exceptIsOk {ε α : Type} (r : Except ε α) : Bool :=
  match r with
  | .ok _ => true
  | .error _ => false

/-- The response entry a batch item contributes on the stdio adapter
(`none` for a notification). -/
def entry (reg : RPCMethodRegistry) (item : Value) : Option RPCResponseDict :=
  match RPCMethodRegistry.handle_single reg item with
  | .ok (some r) => some r
  | _ => none

/-- An item is a notification when it parses into a request without an id. -/
def isNotification (item : Value) : Bool :=
  match RPCRequest.parse_obj item with
  | .ok req => req.id.isNone
  | .error _ => false

/-- How many of the two payload fields `result` / `error` are present in a
rendered response dict. -/
def RPCResponseDict.resultErrorCount (r : RPCResponseDict) : Nat :=
  (if r.result.isSome then 1 else 0) + (if r.error.isSome then 1 else 0)

/-- A concrete mixed batch: a call, a malformed object item, and a
notification. -/
def demoBatch : List Value :=
  [.obj [("method", .str "add"), ("params", .arr [.num 3, .num 4]), ("id", .num 1)],
   .obj [("params", .num 5), ("id", .num 2)],
   .obj [("method", .str "add"), ("params", .arr [.num 1, .num 2])]]

/-- The spec scenario card: `billing` at endpoint `h1` with one capability. -/
def billingCard1 : AgentCard :=
  ⟨"billing", "1.0.0", "http://h1", none, ["create_invoice"], none,
   "2026-01-01T00:00:00", []⟩

/-- The spec scenario card: `billing` re-registered at endpoint `h2` with an
extra capability. -/
def billingCard2 : AgentCard :=
  ⟨"billing", "1.0.0", "http://h2", none, ["create_invoice", "refund"], none,
   "2026-01-02T00:00:00", []⟩

/-- A registry whose settings reject duplicate registrations
(`warn_on_duplicate = False`), holding `add`. -/
def strictRegistry : RPCMethodRegistry :=
  ⟨"rpc", [("add", ⟨"add", addHandler, none, none⟩)], ⟨false, false, true⟩⟩

/-- Claim C1, counterexample: the claim as stated is false on the code:
`dispatch` on an unregistered method yields error code `-32000`, not
`-32601` — `registry.get`'s miss branch raises `NameError` (the name
`METHOD_NOT_FOUND` is never imported in registry.py) and the
`except Exception` clause in `RPCDispatcher.dispatch` wraps it into
`JSONRPCError(-32000, "Server error", ...)`. Concretely, dispatching
`"missing"` against an empty registry yields code `-32000`, and the boolean
comparison against the claimed `-32601` evaluates to false. -/
theorem C1_counterexample :
    errCode (RPCDispatcher.dispatch emptyRegistry "missing" .none none) =
      some (-32000) ∧
    (errCode (RPCDispatcher.dispatch emptyRegistry "missing" .none none) ==
      some (-32601)) = false :=
  ⟨rfl, by decide⟩

/-- Claim C1 (amended): for every unregistered method name, `registry.get`
does not even produce the `MethodNotFound` error: its raise statement
references `METHOD_NOT_FOUND`, a name registry.py never imports, so the miss
branch raises `NameError`; `dispatch` then wraps that failure — like every
other — into a `JSONRPCError` with code `-32000` and message
`"Server error"`, for any params and any id. Dispatch never yields
`-32601`. -/
theorem C1_dispatch_wraps_name_error (reg : RPCMethodRegistry)
    (m : String) (p : Params) (id : Option IdVal)
    (h : dictLookup reg.methods m = none) :
    reg.get m = .error (.nameError "name METHOD_NOT_FOUND is not defined") ∧
    ∃ d, RPCDispatcher.dispatch reg m p id = .error ⟨-32000, "Server error", d⟩ := by
  refine ⟨?_, ?_⟩
  · unfold RPCMethodRegistry.get
    rw [h]
  · unfold RPCDispatcher.dispatch RPCMethodRegistry.get
    rw [h]
    exact ⟨_, rfl⟩

/-- Claim C1 witness: the amended theorem applied to the concrete unregistered
method `"missing"` on the empty registry. -/
theorem C1_witness :
    emptyRegistry.get "missing" =
      .error (.nameError "name METHOD_NOT_FOUND is not defined") ∧
    ∃ d, RPCDispatcher.dispatch emptyRegistry "missing" .none none =
      .error ⟨-32000, "Server error", d⟩ :=
  C1_dispatch_wraps_name_error emptyRegistry "missing" .none none rfl

/-- Claim C2, counterexample: the binding rules hold, but the error that
`dispatch` reports for an arity mismatch or a bad params shape is not
`InvalidParams`: dispatching `add` with three positional arguments, or with
a string as params, yields code `-32000`, not the claimed `-32602`, because
`dispatch` rewraps the `INVALID_PARAMS` raised by `_call_fn`. -/
theorem C2_counterexample :
    errCode (RPCDispatcher.dispatch demoRegistry "add"
      (.list [.num 1, .num 2, .num 3]) (some (.num 1))) = some (-32000) ∧
    errCode (RPCDispatcher.dispatch demoRegistry "add"
      (.other (.str "x")) (some (.num 1))) = some (-32000) ∧
    (errCode (RPCDispatcher.dispatch demoRegistry "add"
      (.list [.num 1, .num 2, .num 3]) (some (.num 1))) ==
        some (-32602)) = false :=
  ⟨rfl, rfl, by decide⟩

/-- Claim C2 (amended): `_call_fn` binds exactly as claimed — absent params invoke
the handler with zero arguments, a list spreads positionally in order, a dict
binds keywords, an arity mismatch (`TypeError`) is turned into
`InvalidParams` (code `-32602`), and any other shape raises `InvalidParams`
without the handler ever being invoked (the outcome is the same for every
handler) — but any such failure surfaces from `dispatch` rewrapped with code
`-32000`. -/
theorem C2_param_binding :
    (∀ (fn : Handler) (v : Value), fn.call [] [] = .ok v →
      callFn fn .none = .ok v) ∧
    (∀ (fn : Handler) (xs : List Value) (v : Value), fn.call xs [] = .ok v →
      callFn fn (.list xs) = .ok v) ∧
    (∀ (fn : Handler) (xs : List Value) (m : String),
      fn.call xs [] = .error (.typeError m) →
      callFn fn (.list xs) = .error (.rpcError (INVALID_PARAMS (some (reasonObj m))))) ∧
    (∀ (fn : Handler) (kvs : List (String × Value)) (v : Value),
      fn.call [] kvs = .ok v → callFn fn (.dict kvs) = .ok v) ∧
    (∀ (fn : Handler) (v : Value), callFn fn (.other v) =
      .error (.rpcError (INVALID_PARAMS
        (some (reasonObj "params must be list or dict or null"))))) ∧
    (∀ (reg : RPCMethodRegistry) (m : String) (w : MethodWrapper) (p : Params)
        (id : Option IdVal) (e : PyExc),
      dictLookup reg.methods m = some w → callFn w.fn p = .error e →
      errCode (RPCDispatcher.dispatch reg m p id) = some (-32000)) := by
  refine ⟨?_, ?_, ?_, ?_, ?_, ?_⟩
  · intro fn v h
    simp only [callFn]
    rw [h]
  · intro fn xs v h
    simp only [callFn]
    rw [h]
  · intro fn xs m h
    simp only [callFn]
    rw [h]
  · intro fn kvs v h
    simp only [callFn]
    rw [h]
  · intro fn v
    rfl
  · intro reg m w p id e hreg hcall
    unfold RPCDispatcher.dispatch RPCMethodRegistry.get
    rw [hreg]
    show errCode (match callFn w.fn p with
      | .ok v => .ok (⟨v, id⟩ : DispatchOk)
      | .error e => .error ⟨-32000, "Server error",
          some (.obj [("exception", .str e.toText)])⟩) = some (-32000)
    rw [hcall]
    rfl

/-- Claim C2 witness: each binding rule of the amended theorem applied to the
concrete handlers `ping` (zero arguments, returns `None`) and `add`. -/
theorem C2_witness :
    callFn pingHandler .none = .ok .null ∧
    callFn addHandler (.list [.num 3, .num 4]) = .ok (.num 7) ∧
    callFn addHandler (.list [.num 1, .num 2, .num 3]) =
      .error (.rpcError (INVALID_PARAMS
        (some (reasonObj "add takes 2 positional arguments")))) ∧
    callFn addHandler (.dict [("a", .num 5), ("b", .num 2)]) = .ok (.num 7) ∧
    callFn addHandler (.other (.str "x")) =
      .error (.rpcError (INVALID_PARAMS
        (some (reasonObj "params must be list or dict or null")))) ∧
    errCode (RPCDispatcher.dispatch demoRegistry "add"
      (.list [.num 1, .num 2, .num 3]) none) = some (-32000) :=
  ⟨C2_param_binding.1 pingHandler .null rfl,
   C2_param_binding.2.1 addHandler [.num 3, .num 4] (.num 7) rfl,
   C2_param_binding.2.2.1 addHandler [.num 1, .num 2, .num 3]
     "add takes 2 positional arguments" rfl,
   C2_param_binding.2.2.2.1 addHandler [("a", .num 5), ("b", .num 2)] (.num 7) rfl,
   C2_param_binding.2.2.2.2.1 addHandler (.str "x"),
   C2_param_binding.2.2.2.2.2 demoRegistry "add" ⟨"add", addHandler, none, none⟩
     (.list [.num 1, .num 2, .num 3]) none
     (.rpcError (INVALID_PARAMS
       (some (reasonObj "add takes 2 positional arguments")))) rfl rfl⟩

lemma handle_single_parsed (reg : RPCMethodRegistry) (item : Value)
    (req : RPCRequest) (hp : RPCRequest.parse_obj item = .ok req) :
    HTTPTransport.handle_single reg item = .ok (handleParsed reg req) := by
  unfold HTTPTransport.handle_single
  rw [hp]

lemma registry_handle_single_parsed (reg : RPCMethodRegistry) (item : Value)
    (req : RPCRequest) (hp : RPCRequest.parse_obj item = .ok req) :
    RPCMethodRegistry.handle_single reg item = .ok (handleParsed reg req) := by
  unfold RPCMethodRegistry.handle_single
  rw [hp]

lemma isNotification_parsed (item : Value) (req : RPCRequest)
    (hp : RPCRequest.parse_obj item = .ok req) :
    isNotification item = req.id.isNone := by
  unfold isNotification
  rw [hp]

lemma handleParsed_none_iff (reg : RPCMethodRegistry) (req : RPCRequest) :
    handleParsed reg req = none ↔ req.id = none := by
  unfold handleParsed
  cases req.id <;> simp

lemma handleParsed_some (reg : RPCMethodRegistry) (req : RPCRequest)
    (rid : IdVal) (hid : req.id = some rid) :
    handleParsed reg req = some (handleCall reg req rid) := by
  unfold handleParsed
  rw [hid]

lemma count_makeResponse_result (v : Value) (idv : Option IdVal) :
    (makeResponse (some v) none idv).resultErrorCount ≤ 1 ∧
    ((makeResponse (some v) none idv).resultErrorCount = 0 ↔ v = .null) := by
  cases v <;> simp [makeResponse, pyNone, RPCResponseDict.resultErrorCount]

lemma count_makeResponse_error (e : JSONRPCError) (idv : Option IdVal) :
    (makeResponse none (some e) idv).resultErrorCount = 1 := rfl

/-- Claim C3, counterexample: the claim is false on the code for a handler that returns `null`:
`.dict(exclude_none=True)` drops the `result` field when the handler
returned Python `None`, so the call response for `ping` (whose handler
returns `None`) carries neither `result` nor `error`. -/
theorem C3_counterexample :
    HTTPTransport.handle_single demoRegistry
        (.obj [("method", .str "ping"), ("id", .num 1)]) =
      .ok (some ⟨"2.0", none, none, some (.num 1)⟩) ∧
    RPCResponseDict.resultErrorCount ⟨"2.0", none, none, some (.num 1)⟩ = 0 :=
  ⟨rfl, rfl⟩

/-- Claim C3 (amended): every response envelope produced for a call carries at most
one of `result` / `error`, and exactly one unless the handler completed
successfully with Python `None` as its result, in which case
`exclude_none=True` drops both fields and the envelope carries neither. -/
theorem C3_call_response_fields (reg : RPCMethodRegistry) (item : Value)
    (req : RPCRequest) (rid : IdVal)
    (hp : RPCRequest.parse_obj item = .ok req) (hid : req.id = some rid) :
    ∃ r, HTTPTransport.handle_single reg item = .ok (some r) ∧
      r.resultErrorCount ≤ 1 ∧
      (r.resultErrorCount = 0 ↔
        ∃ ok, RPCDispatcher.dispatch reg req.method (paramsOfReq req.params)
          (some rid) = .ok ok ∧ ok.result = .null) := by
  rw [handle_single_parsed reg item req hp, handleParsed_some reg req rid hid]
  unfold handleCall
  cases hdisp : RPCDispatcher.dispatch reg req.method (paramsOfReq req.params)
      (some rid) with
  | ok r0 =>
      refine ⟨_, rfl, (count_makeResponse_result r0.result (some rid)).1, ?_⟩
      rw [(count_makeResponse_result r0.result (some rid)).2]
      constructor
      · intro hnull
        exact ⟨r0, rfl, hnull⟩
      · rintro ⟨ok, hok, hnull⟩
        injection hok with hok2
        rw [hok2]
        exact hnull
  | error e =>
      refine ⟨_, rfl, ?_, ?_⟩
      · exact Nat.le_refl 1
      · rw [count_makeResponse_error e (some rid)]
        constructor
        · intro h01
          exact absurd h01 one_ne_zero
        · rintro ⟨ok, hok, _⟩
          exact Except.noConfusion hok

/-- Claim C3 witness: the amended theorem applied to the concrete call
`add([3, 4])` with id `2` on the demo registry. -/
theorem C3_witness :
    ∃ r, HTTPTransport.handle_single demoRegistry
        (.obj [("method", .str "add"), ("params", .arr [.num 3, .num 4]),
               ("id", .num 2)]) = .ok (some r) ∧
      r.resultErrorCount ≤ 1 ∧
      (r.resultErrorCount = 0 ↔
        ∃ ok, RPCDispatcher.dispatch demoRegistry "add"
          (paramsOfReq (some (.list [.num 3, .num 4]))) (some (.num 2)) =
            .ok ok ∧ ok.result = .null) :=
  C3_call_response_fields demoRegistry
    (.obj [("method", .str "add"), ("params", .arr [.num 3, .num 4]),
           ("id", .num 2)])
    ⟨"2.0", "add", some (.list [.num 3, .num 4]), some (.num 2)⟩ (.num 2) rfl rfl

lemma registry_handle_single_eq_entry (reg : RPCMethodRegistry) (item : Value)
    (h : exceptIsOk (salvageId item) = true) :
    RPCMethodRegistry.handle_single reg item = .ok (entry reg item) := by
  cases hp : RPCRequest.parse_obj item with
  | error msg =>
      cases hs : salvageId item with
      | error exc =>
          rw [hs] at h
          simp [exceptIsOk] at h
      | ok idv =>
          unfold entry RPCMethodRegistry.handle_single
          rw [hp, hs]
  | ok req =>
      have h1 := registry_handle_single_parsed reg item req hp
      rw [h1]
      unfold entry
      rw [h1]
      cases handleParsed reg req <;> rfl

lemma entry_eq_none_iff (reg : RPCMethodRegistry) (item : Value)
    (h : exceptIsOk (salvageId item) = true) :
    entry reg item = none ↔ isNotification item = true := by
  cases hp : RPCRequest.parse_obj item with
  | error msg =>
      cases hs : salvageId item with
      | error exc =>
          rw [hs] at h
          simp [exceptIsOk] at h
      | ok idv =>
          have he : entry reg item = some (makeResponse none
              (some (INVALID_REQUEST (some (.str msg)))) idv) := by
            unfold entry RPCMethodRegistry.handle_single
            rw [hp, hs]
          have hn : isNotification item = false := by
            unfold isNotification
            rw [hp]
          rw [he, hn]
          simp
  | ok req =>
      have he : entry reg item = handleParsed reg req := by
        unfold entry
        rw [registry_handle_single_parsed reg item req hp]
        cases handleParsed reg req <;> rfl
      rw [he, isNotification_parsed item req hp, handleParsed_none_iff reg req]
      cases req.id <;> simp

lemma registryHandleItems_eq (reg : RPCMethodRegistry) (items : List Value)
    (h : ∀ item ∈ items, exceptIsOk (salvageId item) = true) :
    registryHandleItems reg items = .ok (items.map (entry reg)) := by
  induction items with
  | nil => rfl
  | cons a rest ih =>
      have ha : RPCMethodRegistry.handle_single reg a = .ok (entry reg a) :=
        registry_handle_single_eq_entry reg a (h a (List.mem_cons_self a rest))
      have hr := ih (fun i hi => h i (List.mem_cons_of_mem a hi))
      simp only [registryHandleItems, ha, hr]
      rfl

lemma filterMap_entry_length (reg : RPCMethodRegistry) (items : List Value)
    (h : ∀ item ∈ items, exceptIsOk (salvageId item) = true) :
    (items.filterMap (entry reg)).length =
      (items.filter (fun i => !isNotification i)).length := by
  induction items with
  | nil => rfl
  | cons a rest ih =>
      have hh := entry_eq_none_iff reg a (h a (List.mem_cons_self a rest))
      have ihh := ih (fun i hi => h i (List.mem_cons_of_mem a hi))
      cases he : entry reg a with
      | none =>
          have hn : isNotification a = true := hh.mp he
          simp [List.filterMap_cons, he, List.filter_cons, hn, ihh]
      | some r =>
          have hn : isNotification a = false := by
            cases hn2 : isNotification a
            · rfl
            · exact absurd (hh.mpr hn2) (by simp [he])
          simp [List.filterMap_cons, he, List.filter_cons, hn, ihh]

/-- Claim C4, counterexample: the claim, universally over batch payloads, is
false on the HTTP adapter (the one wired into the FastAPI app): on any
malformed item its `except` branch evaluates `JSONRPCError(...)`, a name
http.py never imports, so `NameError` escapes and no response array is
produced at all. Failing input: the batch `[{"params": 5, "id": 2}]`, a
single malformed non-notification item (with a perfectly salvageable id),
for which the claim demands a one-element response array of error entries.
On the stdio adapter an analogous failure exists for items whose id cannot
be salvaged: the batch `[{"id": [1]}]` makes `RPCResponse` validation raise. -/
theorem C4_counterexample :
    HTTPTransport.handle emptyRegistry
        (.arr [.obj [("params", .num 5), ("id", .num 2)]]) =
      .error (.nameError "name JSONRPCError is not defined") ∧
    exceptIsOk (HTTPTransport.handle emptyRegistry
      (.arr [.obj [("params", .num 5), ("id", .num 2)]])) = false ∧
    RPCMethodRegistry.handle_payload_batch emptyRegistry
        [.obj [("id", .arr [.num 1])]] =
      .error (.other "validation error for RPCResponse id") :=
  ⟨rfl, rfl, rfl⟩

/-- Claim C4 (amended): on the stdio adapter (registry.py `_handle_payload`),
for every batch whose items all have a salvageable `id` field (absent,
`null`, int or string — every well-formed envelope qualifies), items are
processed independently in array order, the response is the in-order list of
the per-item entries, its length is the number of non-notification items, an
all-notification batch produces no body (`None`), and every malformed item
contributes an error entry. Items outside this set make the stdio adapter
raise, and on the HTTP adapter any malformed item at all raises `NameError`
instead of contributing an error entry (see the counterexample). -/
theorem C4_batch_shape (reg : RPCMethodRegistry) (items : List Value)
    (h : ∀ item ∈ items, exceptIsOk (salvageId item) = true) :
    RPCMethodRegistry.handle_payload_batch reg items =
      .ok (if (items.filterMap (entry reg)).isEmpty then none
           else some (items.filterMap (entry reg))) ∧
    (items.filterMap (entry reg)).length =
      (items.filter (fun i => !isNotification i)).length ∧
    (RPCMethodRegistry.handle_payload_batch reg items = .ok none ↔
      ∀ i ∈ items, isNotification i = true) ∧
    (∀ i ∈ items, exceptIsOk (RPCRequest.parse_obj i) = false →
      ∃ r, entry reg i = some r ∧ r.error.isSome = true) := by
  have hb : RPCMethodRegistry.handle_payload_batch reg items =
      .ok (if (items.filterMap (entry reg)).isEmpty then none
           else some (items.filterMap (entry reg))) := by
    unfold RPCMethodRegistry.handle_payload_batch
    rw [registryHandleItems_eq reg items h]
    simp only [Except.map, List.filterMap_map]
    rfl
  refine ⟨hb, filterMap_entry_length reg items h, ?_, ?_⟩
  · rw [hb]
    constructor
    · intro hok i hi
      by_cases he : (items.filterMap (entry reg)).isEmpty
      · have h1 : items.filterMap (entry reg) = [] := List.isEmpty_iff.mp he
        have h2 := List.filterMap_eq_nil_iff.mp h1 i hi
        exact (entry_eq_none_iff reg i (h i hi)).mp h2
      · rw [if_neg he] at hok
        injection hok with hok2
        exact absurd hok2 (by simp)
    · intro hall
      have h1 : items.filterMap (entry reg) = [] := by
        rw [List.filterMap_eq_nil_iff]
        intro i hi
        exact (entry_eq_none_iff reg i (h i hi)).mpr (hall i hi)
      rw [h1]
      rfl
  · intro i hi hp
    have hs := h i hi
    unfold entry RPCMethodRegistry.handle_single
    cases hpp : RPCRequest.parse_obj i with
    | ok req =>
        rw [hpp] at hp
        simp [exceptIsOk] at hp
    | error msg =>
        cases hss : salvageId i with
        | error exc =>
            rw [hss] at hs
            simp [exceptIsOk] at hs
        | ok idv => exact ⟨_, rfl, rfl⟩

/-- Claim C4 witness: the amended theorem applied to the concrete mixed batch
on the stdio adapter. -/
theorem C4_witness :
    RPCMethodRegistry.handle_payload_batch demoRegistry demoBatch =
      .ok (if (demoBatch.filterMap (entry demoRegistry)).isEmpty then none
           else some (demoBatch.filterMap (entry demoRegistry))) ∧
    (demoBatch.filterMap (entry demoRegistry)).length =
      (demoBatch.filter (fun i => !isNotification i)).length ∧
    (RPCMethodRegistry.handle_payload_batch demoRegistry demoBatch =
        .ok none ↔
      ∀ i ∈ demoBatch, isNotification i = true) ∧
    (∀ i ∈ demoBatch, exceptIsOk (RPCRequest.parse_obj i) = false →
      ∃ r, entry demoRegistry i = some r ∧ r.error.isSome = true) :=
  C4_batch_shape demoRegistry demoBatch (by decide)

/-- Claim C5: a parseable envelope without an id is a notification: dispatch is
attempted (the adapter calls `dispatch` and discards any outcome behind a
bare `except`), no response entry is produced and no exception escapes to
the sender — on both the HTTP adapter and the stdio adapter — whatever the
handler or the registry contents. -/
theorem C5_notification_silent (reg : RPCMethodRegistry) (item : Value)
    (req : RPCRequest)
    (hp : RPCRequest.parse_obj item = .ok req) (hid : req.id = none) :
    HTTPTransport.handle_single reg item = .ok none ∧
    RPCMethodRegistry.handle_single reg item = .ok none := by
  refine ⟨?_, ?_⟩
  · rw [handle_single_parsed reg item req hp]
    unfold handleParsed
    rw [hid]
  · rw [registry_handle_single_parsed reg item req hp]
    unfold handleParsed
    rw [hid]

/-- Claim C5 witness: a notification calling `add` with a bad arity (the handler
raises) on the demo registry, and a notification to an unregistered method
on the empty registry — both produce no response and no exception. -/
theorem C5_witness :
    (HTTPTransport.handle_single demoRegistry
        (.obj [("method", .str "add"), ("params", .arr [.num 1])]) = .ok none ∧
      RPCMethodRegistry.handle_single demoRegistry
        (.obj [("method", .str "add"), ("params", .arr [.num 1])]) = .ok none) ∧
    HTTPTransport.handle_single emptyRegistry
        (.obj [("method", .str "nope")]) = .ok none :=
  ⟨C5_notification_silent demoRegistry
      (.obj [("method", .str "add"), ("params", .arr [.num 1])])
      ⟨"2.0", "add", some (.list [.num 1]), none⟩ rfl rfl,
   (C5_notification_silent emptyRegistry (.obj [("method", .str "nope")])
      ⟨"2.0", "nope", none, none⟩ rfl rfl).1⟩

/-- Claim C6, counterexample: the claim is false on the code for the HTTP
adapter (the one wired into the FastAPI app): on an unparseable single
envelope its `except` branch evaluates `JSONRPCError(...)`, a name http.py
never imports, so `NameError` escapes `_handle_single` — no `InvalidRequest`
(nor any) error response is produced and `item.get("id")` is never
evaluated. Failing input: the object `{"params": 5}`. -/
theorem C6_counterexample :
    HTTPTransport.handle_single emptyRegistry (.obj [("params", .num 5)]) =
      .error (.nameError "name JSONRPCError is not defined") ∧
    exceptIsOk (HTTPTransport.handle_single emptyRegistry
      (.obj [("params", .num 5)])) = false :=
  ⟨rfl, rfl⟩

/-- Claim C6 (amended): for every single object envelope that fails to parse
into a Request, the HTTP adapter raises `NameError` (its `JSONRPCError`
reference is unbound in http.py) and produces no response at all, while the
stdio adapter (registry.py `_handle_single`, which does import
`INVALID_REQUEST`) produces `InvalidRequest` (code `-32600`) keyed to the
salvaged id, the `id` field being omitted (not set to null) when none was
found. -/
theorem C6_parse_failure_responses (reg : RPCMethodRegistry) (item : Value)
    (msg : String)
    (hp : RPCRequest.parse_obj item = .error msg) :
    HTTPTransport.handle_single reg item =
      .error (.nameError "name JSONRPCError is not defined") ∧
    (∀ idv, salvageId item = .ok idv →
      RPCMethodRegistry.handle_single reg item =
        .ok (some ⟨"2.0", none,
          some ⟨-32600, "Invalid Request", some (.str msg)⟩, idv⟩)) := by
  refine ⟨?_, ?_⟩
  · unfold HTTPTransport.handle_single
    rw [hp]
  · intro idv hs
    unfold RPCMethodRegistry.handle_single
    rw [hp, hs]
    rfl

/-- Claim C6 witness: the amended theorem applied to the malformed envelope
`{"id": 9, "params": 5}`: the HTTP adapter raises, the stdio adapter
answers `-32600` keyed to the salvaged id `9`. -/
theorem C6_witness :
    HTTPTransport.handle_single emptyRegistry
        (.obj [("id", .num 9), ("params", .num 5)]) =
      .error (.nameError "name JSONRPCError is not defined") ∧
    RPCMethodRegistry.handle_single emptyRegistry
        (.obj [("id", .num 9), ("params", .num 5)]) =
      .ok (some ⟨"2.0", none,
        some ⟨-32600, "Invalid Request", some (.str "method field required")⟩,
        some (.num 9)⟩) :=
  ⟨(C6_parse_failure_responses emptyRegistry
      (.obj [("id", .num 9), ("params", .num 5)]) "method field required"
      rfl).1,
   (C6_parse_failure_responses emptyRegistry
      (.obj [("id", .num 9), ("params", .num 5)]) "method field required"
      rfl).2 (some (.num 9)) rfl⟩

lemma filter_comm_helper (l : List AgentCard) (f g : AgentCard → Bool) :
    List.filter f (List.filter g l) = List.filter g (List.filter f l) := by
  rw [List.filter_filter, List.filter_filter]
  exact List.filter_congr (fun a _ => Bool.and_comm _ _)

lemma filter_name_of_pruned (l : List AgentCard) (nm : String) :
    List.filter (fun r => r.name == nm)
      (List.filter (fun r => !(r.name == nm)) l) = [] := by
  rw [List.filter_eq_nil_iff]
  intro a ha
  rcases List.mem_filter.mp ha with ⟨-, hpa⟩
  simp only [Bool.not_eq_true'] at hpa
  simp [hpa]

/-- Claim C7: re-registering a name overwrites in place: after registering
`c1` and then `c2` under the same name, the whole directory holds exactly one
row under that name — `c2` — and discovery of any capability of `c2` answers
with a card list in which that name appears exactly once, carried by `c2`
(hence with `c2`'s endpoint). -/
theorem C7_register_overwrite (store : AgentStore) (c1 c2 : AgentCard)
    (cap : String) (hname : c1.name = c2.name)
    (hcap : c2.capabilities.contains cap = true) :
    List.filter (fun r => r.name == c2.name)
      (register_agent (register_agent store c1) c2) = [c2] ∧
    ∃ results,
      discover_agent (register_agent (register_agent store c1) c2) cap =
        .ok results ∧
      List.filter (fun r => r.name == c2.name) results = [c2] := by
  have hA : List.filter (fun r => r.name == c2.name)
      (register_agent (register_agent store c1) c2) = [c2] := by
    unfold register_agent
    rw [List.filter_append, filter_name_of_pruned]
    simp
  have hmem : c2 ∈ register_agent (register_agent store c1) c2 := by
    unfold register_agent
    simp
  have hres : c2 ∈ List.filter (fun r => r.capabilities.contains cap)
      (register_agent (register_agent store c1) c2) :=
    List.mem_filter.mpr ⟨hmem, hcap⟩
  have hne : (List.filter (fun r => r.capabilities.contains cap)
      (register_agent (register_agent store c1) c2)).isEmpty = false := by
    rcases hfil : List.filter (fun r => r.capabilities.contains cap)
        (register_agent (register_agent store c1) c2) with - | ⟨a, l⟩
    · rw [hfil] at hres
      cases hres
    · rw [hfil]
      rfl
  refine ⟨hA, List.filter (fun r => r.capabilities.contains cap)
    (register_agent (register_agent store c1) c2), ?_, ?_⟩
  · simp only [discover_agent]
    rw [hne]
    rfl
  · rw [filter_comm_helper, hA, List.filter_cons]
    simp only [hcap]
    rfl

/-- Claim C7 witness: the overwrite theorem applied to the spec scenario —
`billing` at `http://h1`, then `billing` at `http://h2`, queried for
`create_invoice` on an initially empty directory. -/
theorem C7_witness :
    List.filter (fun r => r.name == billingCard2.name)
      (register_agent (register_agent [] billingCard1) billingCard2) =
      [billingCard2] ∧
    ∃ results,
      discover_agent (register_agent (register_agent [] billingCard1)
        billingCard2) "create_invoice" = .ok results ∧
      List.filter (fun r => r.name == billingCard2.name) results =
        [billingCard2] :=
  C7_register_overwrite [] billingCard1 billingCard2 "create_invoice" rfl rfl

/-- Claim C8: `find_agent` fails with the no-agent error exactly when the
discovery client returned an empty candidate list; a 404 from the directory
is translated by the discovery client into an empty list rather than an
exception; and whenever `find_agent` returns an agent it is an element of the
candidate list — for every pick of the random choice. The definition of
`find_agent` consumes only the directory reply, so the failure occurs before
any transport to an agent endpoint exists. -/
theorem C8_find_agent (reply : DirectoryReply) (method : String) (pick : Nat) :
    (RPCClient.find_agent reply method pick = .error (.noAgentFound method) ↔
      DiscoveryClient.find_agents reply = .ok []) ∧
    DiscoveryClient.find_agents .notFound = .ok [] ∧
    (∀ cards a, DiscoveryClient.find_agents reply = .ok cards →
      RPCClient.find_agent reply method pick = .ok a → a ∈ cards) := by
  refine ⟨?_, rfl, ?_⟩
  · cases reply with
    | success cards =>
        cases cards with
        | nil => simp [RPCClient.find_agent, DiscoveryClient.find_agents]
        | cons c rest =>
            simp [RPCClient.find_agent, DiscoveryClient.find_agents]
    | notFound => simp [RPCClient.find_agent, DiscoveryClient.find_agents]
    | httpError s => simp [RPCClient.find_agent, DiscoveryClient.find_agents]
    | networkError m => simp [RPCClient.find_agent, DiscoveryClient.find_agents]
  · intro cards a hcards ha
    cases reply with
    | success cs =>
        cases cs with
        | nil => simp [RPCClient.find_agent, DiscoveryClient.find_agents] at ha
        | cons c rest =>
            injection hcards with hc
            subst hc
            simp only [RPCClient.find_agent, DiscoveryClient.find_agents] at ha
            injection ha with ha2
            rw [← ha2]
            exact List.get_mem _ _ _
    | notFound => simp [RPCClient.find_agent, DiscoveryClient.find_agents] at ha
    | httpError s =>
        simp [RPCClient.find_agent, DiscoveryClient.find_agents] at ha
    | networkError m =>
        simp [RPCClient.find_agent, DiscoveryClient.find_agents] at ha

/-- Claim C8 witness: a 404 reply makes `find_agent` fail with the no-agent
error for `"chat"`, and with two candidates for `"chat"` the picked agent is
one of them. -/
theorem C8_witness :
    RPCClient.find_agent .notFound "chat" 0 = .error (.noAgentFound "chat") ∧
    billingCard2 ∈ [billingCard1, billingCard2] :=
  ⟨(C8_find_agent .notFound "chat" 0).1.mpr rfl,
   (C8_find_agent (.success [billingCard1, billingCard2]) "chat" 3).2.2
     [billingCard1, billingCard2] billingCard2 rfl rfl⟩

lemma dictLookup_dictInsert_self {α : Type} (d : List (String × α))
    (k : String) (v : α) :
    dictLookup (dictInsert d k v) k = some v := by
  induction d with
  | nil => simp [dictInsert, dictLookup]
  | cons p rest ih =>
      obtain ⟨k2, v2⟩ := p
      by_cases hk : k2 = k
      · simp [dictInsert, hk, dictLookup]
      · simp [dictInsert, hk, dictLookup, ih]

/-- Claim C9: `register` fails with the duplicate-method `ValueError` when
the name already exists and the duplicate policy is reject — which in the
code is `warn_on_duplicate = False` — and otherwise (policy permits, or the
name is fresh) it succeeds and stores the new wrapper, so a subsequent
`get` returns the most recently registered handler. -/
theorem C9_duplicate_policy (reg : RPCMethodRegistry) (methodName : String)
    (descr : Option String) (schema : Option Value) (fn : Handler) :
    ((dictLookup reg.methods methodName).isSome = true →
      reg.settings.warn_on_duplicate = false →
      reg.register methodName descr schema fn =
        .error ("Method " ++ methodName ++ " already registered")) ∧
    (reg.settings.warn_on_duplicate = true →
      ∃ reg2, reg.register methodName descr schema fn = .ok reg2 ∧
        reg2.get methodName = .ok ⟨methodName, fn, descr, schema⟩) ∧
    ((dictLookup reg.methods methodName).isSome = false →
      ∃ reg2, reg.register methodName descr schema fn = .ok reg2 ∧
        reg2.get methodName = .ok ⟨methodName, fn, descr, schema⟩) := by
  refine ⟨?_, ?_, ?_⟩
  · intro h1 h2
    unfold RPCMethodRegistry.register
    rw [h1, h2]
    rfl
  · intro h2
    have hc : ((dictLookup reg.methods methodName).isSome &&
        !reg.settings.warn_on_duplicate) = false := by
      rw [h2]
      simp
    unfold RPCMethodRegistry.register
    rw [hc]
    refine ⟨_, rfl, ?_⟩
    unfold RPCMethodRegistry.get
    rw [dictLookup_dictInsert_self]
  · intro h1
    have hc : ((dictLookup reg.methods methodName).isSome &&
        !reg.settings.warn_on_duplicate) = false := by
      rw [h1]
      simp
    unfold RPCMethodRegistry.register
    rw [hc]
    refine ⟨_, rfl, ?_⟩
    unfold RPCMethodRegistry.get
    rw [dictLookup_dictInsert_self]

/-- Claim C9 witness: on a registry with `warn_on_duplicate = False` holding
`add`, re-registering `add` raises the duplicate `ValueError`; on the default
registry (`warn_on_duplicate = True`) re-registering `add` with a new handler
succeeds and `get` returns that handler. -/
theorem C9_witness :
    strictRegistry.register "add" none none pingHandler =
      .error ("Method " ++ "add" ++ " already registered") ∧
    ∃ reg2, demoRegistry.register "add" none none pingHandler = .ok reg2 ∧
      reg2.get "add" = .ok ⟨"add", pingHandler, none, none⟩ :=
  ⟨(C9_duplicate_policy strictRegistry "add" none none pingHandler).1 rfl rfl,
   (C9_duplicate_policy demoRegistry "add" none none pingHandler).2.1 rfl⟩

/-- Claim C10: a call issued through `call_method` without an explicit id —
which is how `RPCClient.call` always issues calls — carries the constant
string id `"1"`: the id of the sent envelope is `"1"` for every method and
every params value, hence identical across all such calls. -/
theorem C10_constant_call_id (method : String) (params : Option ReqParams) :
    (RPCClient.call_request method params).id = some (.str "1") ∧
    (RPCClient.call_request method params).method = method ∧
    ∀ (m2 : String) (p2 : Option ReqParams),
      (RPCClient.call_request method params).id =
        (RPCClient.call_request m2 p2).id :=
  ⟨rfl, rfl, fun _ _ => rfl⟩

end RPCFramework
